import Mathlib

/-!
Verification of the Medistock pharmacy-inventory repository.

The Python source is shallowly embedded: pure utility functions from
src/utils.py and src/barcode_service.py become Lean functions, and the
stateful store from src/database.py becomes explicit state passing over a
database value.  Python's numeric comparisons that mix int and float
(such as `current_stock <= reorder_point * 1.5`) are embedded as exact
integer or rational comparisons; this is exact for every value whose
magnitude stays below 2^53, which covers the validated input range of the
application (stock is capped at 1,000,000 and price at 10,000).
-/

namespace Medistock

/-- Derived stock classification, src/utils.py lines 18-27. -/
inductive StockStatus where
  | Critical
  | Low
  | Warning
  | Good
deriving DecidableEq, Repr

/-- Embedding of get_stock_status (src/utils.py lines 18-27).  The Python
comparison `current_stock <= reorder_point * 1.5` is embedded exactly as
`2 * current_stock <= 3 * reorder_point`. -/
def get_stock_status (current_stock reorder_point : Int) : StockStatus :=
  if current_stock ≤ 0 then .Critical
  else if current_stock ≤ reorder_point then .Low
  else if 2 * current_stock ≤ 3 * reorder_point then .Warning
  else .Good

/-- Embedding of get_alert_priority (src/utils.py lines 97-117).  The
Python comparison `current_stock <= reorder_point * 0.5` is embedded
exactly as `2 * current_stock <= reorder_point`.  The two `priority +=`
blocks become the two let bindings, and the final statement is
`min (priority, 20)`. -/
def get_alert_priority (current_stock reorder_point days_until_expiry : Int) : Int :=
  let stockPriority : Int :=
    if current_stock ≤ 0 then 10
    else if 2 * current_stock ≤ reorder_point then 8
    else if current_stock ≤ reorder_point then 5
    else 0
  let expiryPriority : Int :=
    if days_until_expiry < 0 then 10
    else if days_until_expiry ≤ 7 then 8
    else if days_until_expiry ≤ 30 then 5
    else 0
  min (stockPriority + expiryPriority) 20

/-- Embedding of the Python builtin int() applied to a numeric value:
truncation toward zero. -/
def pyInt (q : ℚ) : Int :=
  if q < 0 then -⌊-q⌋ else ⌊q⌋

/-- Embedding of generate_reorder_suggestion (src/utils.py lines 150-161).
Numeric inputs are embedded as rationals since avg_daily_usage may be
fractional; the final Python int() conversion becomes pyInt. -/
def generate_reorder_suggestion (current_stock reorder_point : ℚ)
    (avg_daily_usage : Option ℚ) (lead_time_days : ℚ := 7) : Int :=
  match avg_daily_usage with
  | none => pyInt (max (reorder_point * 2) 30)
  | some adu =>
      let safety_stock := adu * 3
      let order_quantity := adu * lead_time_days + safety_stock - current_stock
      pyInt (max order_quantity reorder_point)

/-! ## Expiry dates (src/utils.py, calculate_days_until_expiry)

Python dates are embedded as year-month-day triples of naturals, limited
to the years 1 to 9999 supported by the datetime module.  A day count in
the style of the standard civil-calendar algorithm turns a triple into the
number of days since a fixed origin, so that subtracting two day counts is
exactly the day difference the Python date subtraction produces. -/

/-- Split a character list on a separator character, mirroring how the
strptime format string Y-m-d cuts the input at the dashes. -/
def splitOnChar (sep : Char) : List Char → List (List Char)
  | [] => [[]]
  | c :: rest =>
      let r := splitOnChar sep rest
      if c = sep then [] :: r
      else
        match r with
        | [] => [[c]]
        | x :: xs => (c :: x) :: xs

/-- Numeric value of a list of decimal digit characters. -/
def digitsVal (cs : List Char) : Nat :=
  cs.foldl (fun a c => 10 * a + (c.toNat - 48)) 0

/-- True when every character of the list is a decimal digit. -/
def allDigitsB (cs : List Char) : Bool :=
  cs.all (fun c => c.isDigit)

/-- Gregorian leap-year test, as used by the datetime module. -/
def isLeap (y : Nat) : Bool :=
  (y % 4 == 0 && y % 100 != 0) || y % 400 == 0

/-- Number of days in a month of a given year. -/
def daysInMonth (y m : Nat) : Nat :=
  if m = 2 then (if isLeap y then 29 else 28)
  else if m = 4 ∨ m = 6 ∨ m = 9 ∨ m = 11 then 30
  else 31

/-- Validity of a year-month-day triple for the datetime module: years 1
to 9999, months 1 to 12, days within the month. -/
def validDate (y m d : Nat) : Bool :=
  1 ≤ y && y ≤ 9999 && 1 ≤ m && m ≤ 12 && 1 ≤ d && d ≤ daysInMonth y m

/-- Day count of a valid date from a fixed origin, by the standard civil
calendar algorithm over natural numbers.  Differences of day counts equal
calendar day differences. -/
def toDayCount (y m d : Nat) : Nat :=
  let yAdj := if m ≤ 2 then y - 1 else y
  let era := yAdj / 400
  let yoe := yAdj % 400
  let mp := if m ≤ 2 then m + 9 else m - 3
  let doy := (153 * mp + 2) / 5 + (d - 1)
  let doe := yoe * 365 + yoe / 4 - yoe / 100 + doy
  era * 146097 + doe

/-- Embedding of datetime.strptime with format Y-m-d followed by date
construction: exactly three dash-separated fields, a four-digit year, a
one-or-two-digit month and day, and the triple must be a valid date.  A
failure of any of these checks is the ValueError path of the source. -/
def parseDate (s : String) : Option (Nat × Nat × Nat) :=
  match splitOnChar (Char.ofNat 45) s.toList with
  | [ys, ms, ds] =>
      if allDigitsB ys && ys.length == 4 &&
         allDigitsB ms && decide (1 ≤ ms.length) && ms.length ≤ 2 &&
         allDigitsB ds && decide (1 ≤ ds.length) && ds.length ≤ 2 then
        let y := digitsVal ys
        let m := digitsVal ms
        let d := digitsVal ds
        if validDate y m d then some (y, m, d) else none
      else none
  | _ => none

/-- Input to calculate_days_until_expiry: a date object, a string, or a
value of any other type (the TypeError path of the source). -/
inductive ExpiryInput where
  | structured (y m d : Nat)
  | dateStr (s : String)
  | nonDate
deriving DecidableEq, Repr

/-- Embedding of calculate_days_until_expiry (src/utils.py lines 4-16).
The today value produced by datetime.now is passed explicitly.  A string
input is parsed with the fixed format; a date object is used directly; any
parse or type failure returns 0. -/
def calculate_days_until_expiry (expiry_date_str : ExpiryInput)
    (today : Nat × Nat × Nat) : Int :=
  let todayCount : Int := toDayCount today.1 today.2.1 today.2.2
  match expiry_date_str with
  | .structured y m d => (toDayCount y m d : Int) - todayCount
  | .dateStr s =>
      match parseDate s with
      | some (y, m, d) => (toDayCount y m d : Int) - todayCount
      | none => 0
  | .nonDate => 0

/-- A medicine row as consumed by categorize_medicines_by_criticality:
the source indexes the tuple at positions 2, 3 and 4 for current stock,
reorder point and expiry date; positions 0 and 1 are id and name. -/
structure Medicine where
  id : Nat
  name : String
  current_stock : Int
  reorder_point : Int
  expiry_date : ExpiryInput
deriving DecidableEq, Repr

/-- Priority of one medicine row as computed inside the loop of
categorize_medicines_by_criticality (src/utils.py lines 126-132). -/
def medicinePriority (today : Nat × Nat × Nat) (m : Medicine) : Int :=
  get_alert_priority m.current_stock m.reorder_point
    (calculate_days_until_expiry m.expiry_date today)

/-- Result dictionary of categorize_medicines_by_criticality. -/
structure CriticalityBuckets where
  critical : List Medicine
  high : List Medicine
  medium : List Medicine
  low : List Medicine
deriving DecidableEq, Repr

/-- Embedding of categorize_medicines_by_criticality (src/utils.py lines
119-148).  The source loops over the input appending each medicine to one
of four lists; the equivalent structural recursion processes the head and
prepends it to the categorization of the tail, preserving input order. -/
def categorize_medicines_by_criticality (today : Nat × Nat × Nat) :
    List Medicine → CriticalityBuckets
  | [] => ⟨[], [], [], []⟩
  | medicine :: rest =>
      let b := categorize_medicines_by_criticality today rest
      let priority := medicinePriority today medicine
      if 15 ≤ priority then { b with critical := medicine :: b.critical }
      else if 10 ≤ priority then { b with high := medicine :: b.high }
      else if 5 ≤ priority then { b with medium := medicine :: b.medium }
      else { b with low := medicine :: b.low }

/-- Bucket index of a medicine, following the threshold chain of the
source: 0 critical, 1 high, 2 medium, 3 low. -/
def bucketOf (today : Nat × Nat × Nat) (m : Medicine) : Nat :=
  let priority := medicinePriority today m
  if 15 ≤ priority then 0
  else if 10 ≤ priority then 1
  else if 5 ≤ priority then 2
  else 3

/-! ## Inventory store (src/database.py)

The medicines table and the append-only stock_history table become two
lists inside a Database value.  A psycopg2 connection commits at the end
of update_stock and rolls back if any statement raises, so the operation
is embedded as a function returning either a complete new database state
or an error with the state untouched. -/

/-- Row of the medicines table, restricted to the columns update_stock
reads or writes (id is the SERIAL primary key). -/
structure MedicineRow where
  id : Nat
  name : String
  current_stock : Int
  reorder_point : Int
deriving DecidableEq, Repr

/-- Row of the append-only stock_history table. -/
structure StockHistoryRow where
  medicine_id : Nat
  old_stock : Int
  new_stock : Int
  change_reason : String
deriving DecidableEq, Repr

/-- The persisted store: the medicines table and the stock_history table. -/
structure Database where
  medicines : List MedicineRow
  stock_history : List StockHistoryRow
deriving DecidableEq, Repr

/-- Embedding of the SELECT current_stock FROM medicines WHERE id query
followed by fetchone: the stock of the first row with the given id, or
none when the id is absent. -/
def selectStock (db : Database) (medicine_id : Nat) : Option Int :=
  (db.medicines.find? (fun r => r.id == medicine_id)).map (fun r => r.current_stock)

/-- Embedding of update_stock (src/database.py lines 81-107).  The id
lookup happens first; an absent id raises ValueError before any write, so
the state is unchanged.  Otherwise the UPDATE of current_stock and the
INSERT of one history row are committed together as a single
transaction, producing the complete new state. -/
def update_stock (db : Database) (medicine_id : Nat) (new_stock : Int)
    (reason : String := "Manual update") : Except String Database :=
  match selectStock db medicine_id with
  | none => .error ("Medicine with ID " ++ toString medicine_id ++ " not found")
  | some old_stock =>
      .ok { medicines := db.medicines.map (fun r =>
              if r.id == medicine_id then { r with current_stock := new_stock } else r),
            stock_history := db.stock_history ++
              [⟨medicine_id, old_stock, new_stock, reason⟩] }

/-! ## Barcode service (src/barcode_service.py)

Python dictionaries flowing through the barcode service are embedded as a
record of optional fields covering every key the service reads or writes;
an absent key is none.  The json.loads library call is an external
service and enters as an abstract parameter; the repository logic around
it, including the brace search and slicing, is embedded directly.  The
outcome of each network or model call is likewise a parameter: none when
the call raised, otherwise the value it returned. -/

/-- A JSON scalar as it can appear for the price and reorder-point keys:
the model may answer with a string or a number. -/
inductive JVal where
  | jstr (s : String)
  | jnum (n : Int)
deriving DecidableEq, Repr

/-- Python truthiness of an optional string: an absent value and the
empty string are falsy. -/
def sTruthy : Option String → Bool
  | some s => !s.isEmpty
  | none => false

/-- Python truthiness of an optional JSON scalar: absent, the empty
string and the number zero are falsy. -/
def jTruthy : Option JVal → Bool
  | some (.jstr s) => !s.isEmpty
  | some (.jnum n) => n != 0
  | none => false

/-- Python str() applied to a JSON scalar. -/
def jStr : JVal → String
  | .jstr s => s
  | .jnum n => toString n

/-- Python `a or b` on optional strings: a when truthy, otherwise b. -/
def pyOrStr (a b : Option String) : Option String :=
  if sTruthy a then a else b

/-- A barcode-service dictionary: the union of the keys produced by the
basic lookup, by the AI answers, and by the minimal fallback record. -/
structure BDict where
  barcode : Option String := none
  product_name : Option String := none
  name : Option String := none
  brand : Option String := none
  description : Option String := none
  category : Option String := none
  is_medicine : Option Bool := none
  likely_medicine : Option Bool := none
  confidence : Option String := none
  estimated_price : Option JVal := none
  suggested_reorder_point : Option JVal := none
  storage_requirements : Option String := none
  ai_response : Option String := none
  ai_analysis : Option String := none
deriving DecidableEq, Repr

/-- The form-field suggestions returned by suggest_medicine_data. -/
structure MedicineSuggestions where
  name : Option String := none
  category : Option String := none
  unit_price : Option ℚ := none
  reorder_point : Option Int := none
  batch_number : Option String := none
  location : Option String := none
deriving DecidableEq, Repr

/-- Characters kept by the price cleanup filter of suggest_medicine_data:
decimal digits and the dot. -/
def extractPriceChars (s : String) : String :=
  String.mk (s.toList.filter (fun c => c.isDigit || c == '.'))

/-- Python float() on a digits-and-dots string: at most one dot and at
least one digit, with the usual decimal value.  General float() syntax
(signs, exponents, whitespace) never reaches this point because the
characters were filtered first. -/
def parseDigitsDotFloat (s : String) : Option ℚ :=
  match splitOnChar (Char.ofNat 46) s.toList with
  | [ip] =>
      if ip ≠ [] ∧ allDigitsB ip then some (digitsVal ip : ℚ) else none
  | [ip, fp] =>
      if (ip ≠ [] ∨ fp ≠ []) ∧ allDigitsB ip ∧ allDigitsB fp then
        some ((digitsVal ip : ℚ) + (digitsVal fp : ℚ) / ((10 : ℚ) ^ fp.length))
      else none
  | _ => none

/-- Python int() on a JSON scalar: a number passes through, a string must
be an optionally signed digit string (whitespace and underscore
tolerance of the builtin is not modelled; such inputs fail both here and
there for the strings the service produces). -/
def pyIntOfJVal : JVal → Option Int
  | .jnum n => some n
  | .jstr s =>
      match s.toList with
      | '-' :: rest =>
          if rest ≠ [] ∧ allDigitsB rest then some (-(digitsVal rest : Int)) else none
      | '+' :: rest =>
          if rest ≠ [] ∧ allDigitsB rest then some (digitsVal rest : Int) else none
      | cs =>
          if cs ≠ [] ∧ allDigitsB cs then some (digitsVal cs : Int) else none

/-- Embedding of suggest_medicine_data (src/barcode_service.py lines
191-233).  The source performs a sequence of guarded writes to distinct
dictionary keys; each key becomes one field whose value is the guarded
expression.  The reorder-point branch writes the parsed integer on
success and the literal default 10 only when the conversion raises; when
the key is absent or falsy the branch is skipped and no reorder_point is
suggested.  A falsy input dictionary yields the empty suggestion set. -/
def suggest_medicine_data (barcode_info : Option BDict) : MedicineSuggestions :=
  match barcode_info with
  | none => {}
  | some info =>
      { name :=
          if sTruthy info.name || sTruthy info.product_name then
            pyOrStr info.name info.product_name
          else none,
        category := if sTruthy info.category then info.category else none,
        unit_price :=
          if jTruthy info.estimated_price then
            parseDigitsDotFloat
              (extractPriceChars (jStr (info.estimated_price.getD (.jstr ""))))
          else none,
        reorder_point :=
          if jTruthy info.suggested_reorder_point then
            some ((pyIntOfJVal (info.suggested_reorder_point.getD (.jstr ""))).getD 10)
          else none,
        batch_number :=
          if sTruthy info.barcode then
            some ("BC_" ++ info.barcode.getD "")
          else none,
        location :=
          if sTruthy info.storage_requirements then info.storage_requirements
          else none }

/-- Opening brace character, written by code point. -/
def lbrace : Char := Char.ofNat 123

/-- Closing brace character, written by code point. -/
def rbrace : Char := Char.ofNat 125

/-- Embedding of str.find for one character: index of the first
occurrence, or none where Python returns -1. -/
def findIdxChar (c : Char) (cs : List Char) : Option Nat :=
  cs.findIdx? (fun x => x == c)

/-- Embedding of str.rfind for one character: index of the last
occurrence, or none where Python returns -1. -/
def rfindIdxChar (c : Char) (cs : List Char) : Option Nat :=
  match findIdxChar c cs.reverse with
  | none => none
  | some i => some (cs.length - 1 - i)

/-- Embedding of the Python slice s[i:j] for nonnegative indices. -/
def pySlice (cs : List Char) (i j : Nat) : List Char :=
  (cs.drop i).take (j - i)

/-- The fallback record built when the AI-only lookup cannot parse the
response: barcode, likely_medicine false, the Unknown Product name, low
confidence, and the raw response text. -/
def minimalBarcodeRecord (barcode : String) (ai_response : Option String) : BDict :=
  { barcode := some barcode,
    likely_medicine := some false,
    product_name := some "Unknown Product",
    confidence := some "low",
    ai_response := ai_response }

/-- Embedding of the ai_barcode_lookup step (src/barcode_service.py lines
125-189).  The aiCall parameter is none when the completion call raised
(the outer handler then returns None) and otherwise carries the response
content, which may itself be absent.  A truthy response is scanned for
the first opening brace; when none exists the source reads the never
assigned json_str variable, the resulting NameError reaches the outer
handler, and the function returns None.  Otherwise the text between the
first opening brace and one past the last closing brace (position 0 when
there is none) is handed to json.loads, embedded as the abstract
parseJson parameter; a parsed dictionary is returned as is, and a parse
failure yields the minimal fallback record. -/
def ai_barcode_lookup (parseJson : String → Option BDict) (barcode : String)
    (aiCall : Option (Option String)) : Option BDict :=
  match aiCall with
  | none => none
  | some ai_response =>
      if sTruthy ai_response then
        let cs := (ai_response.getD "").toList
        match findIdxChar lbrace cs with
        | none => none
        | some start_idx =>
            let end_idx :=
              match rfindIdxChar rbrace cs with
              | none => 0
              | some k => k + 1
            match parseJson (String.mk (pySlice cs start_idx end_idx)) with
            | some ai_data => some ai_data
            | none => some (minimalBarcodeRecord barcode ai_response)
      else some (minimalBarcodeRecord barcode ai_response)

/-- Dictionary merge of the enhancement step: keys of the AI answer win
over the basic product keys.  A JSON null value is not distinguishable
from an absent key in this embedding. -/
def mergeBDict (base overlay : BDict) : BDict :=
  { barcode := overlay.barcode <|> base.barcode,
    product_name := overlay.product_name <|> base.product_name,
    name := overlay.name <|> base.name,
    brand := overlay.brand <|> base.brand,
    description := overlay.description <|> base.description,
    category := overlay.category <|> base.category,
    is_medicine := overlay.is_medicine <|> base.is_medicine,
    likely_medicine := overlay.likely_medicine <|> base.likely_medicine,
    confidence := overlay.confidence <|> base.confidence,
    estimated_price := overlay.estimated_price <|> base.estimated_price,
    suggested_reorder_point :=
      overlay.suggested_reorder_point <|> base.suggested_reorder_point,
    storage_requirements :=
      overlay.storage_requirements <|> base.storage_requirements,
    ai_response := overlay.ai_response <|> base.ai_response,
    ai_analysis := overlay.ai_analysis <|> base.ai_analysis }

/-- Embedding of the enhance_with_ai step (src/barcode_service.py lines
63-123).  Same call and extraction shape as the AI-only lookup, but every
failure path degrades to the basic product record: a raised call or a
missing opening brace (the NameError slip) returns it unchanged, a parse
failure attaches the raw response as ai_analysis, and a parsed dictionary
is merged over it with AI fields winning. -/
def enhance_with_ai (parseJson : String → Option BDict) (product_info : BDict)
    (aiCall : Option (Option String)) : BDict :=
  match aiCall with
  | none => product_info
  | some ai_response =>
      if sTruthy ai_response then
        let cs := (ai_response.getD "").toList
        match findIdxChar lbrace cs with
        | none => product_info
        | some start_idx =>
            let end_idx :=
              match rfindIdxChar rbrace cs with
              | none => 0
              | some k => k + 1
            match parseJson (String.mk (pySlice cs start_idx end_idx)) with
            | some ai_data => mergeBDict product_info ai_data
            | none => { product_info with ai_analysis := ai_response }
      else { product_info with ai_analysis := ai_response }

/-- Embedding of get_medicine_info_from_barcode (src/barcode_service.py
lines 12-30): a basic lookup result with a truthy product name goes
through AI enhancement, anything else goes to the AI-only lookup. -/
def get_medicine_info_from_barcode (parseJson : String → Option BDict)
    (barcode : String) (basicLookup : Option BDict)
    (enhanceCall aiCall : Option (Option String)) : Option BDict :=
  match basicLookup with
  | some product_info =>
      if sTruthy product_info.product_name then
        some (enhance_with_ai parseJson product_info enhanceCall)
      else ai_barcode_lookup parseJson barcode aiCall
  | none => ai_barcode_lookup parseJson barcode aiCall

/-- The AI-only lookup result of the scenario from the specification: a
product name, a barcode, high confidence, and no suggested_reorder_point
key. -/
def amoxResultInfo : BDict :=
  { product_name := some "Amoxicillin 500mg",
    barcode := some "0123456789",
    likely_medicine := some true,
    confidence := some "high" }

/-- A lookup result whose suggested_reorder_point is present but not
convertible to an integer. -/
def badReorderInfo : BDict :=
  { product_name := some "Amoxicillin 500mg",
    barcode := some "0123456789",
    suggested_reorder_point := some (.jstr "around twenty") }

/-! ## Input validators (src/utils.py, validate_price and
validate_stock_quantity)

The float() builtin can produce NaN and infinities (for instance from the
strings nan and inf), so the price validator works on an extended value
type with the comparison semantics of IEEE floats: NaN compares false
against everything.  The conversion itself is the external builtin and
enters as an Option: none is the ValueError or TypeError path. -/

/-- A Python float value: a finite rational, NaN, or an infinity.
Finite values of the application stay far below the magnitudes where
binary64 rounding separates float from rational comparison. -/
inductive PFloat where
  | finite (q : ℚ)
  | nan
  | inf
  | ninf
deriving DecidableEq, Repr

/-- The strict less-than of Python floats: NaN is incomparable, the
infinities bound every finite value. -/
def pfLt : PFloat → PFloat → Bool
  | .nan, _ => false
  | _, .nan => false
  | .ninf, .ninf => false
  | .ninf, _ => true
  | _, .ninf => false
  | .inf, _ => false
  | .finite x, .finite y => decide (x < y)
  | .finite _, .inf => true

/-- The non-strict comparison of Python floats, used to state the claimed
range condition: NaN is incomparable. -/
def pfLe : PFloat → PFloat → Bool
  | .nan, _ => false
  | _, .nan => false
  | .ninf, _ => true
  | _, .ninf => false
  | _, .inf => true
  | .inf, _ => false
  | .finite x, .finite y => decide (x ≤ y)

/-- Embedding of validate_price (src/utils.py lines 58-68).  The input is
the outcome of float(price): none when the conversion raised.  The source
tests price_float < 0 and then price_float > 10000; the latter is the
flipped strict comparison. -/
def validate_price (price : Option PFloat) : Bool × String :=
  match price with
  | none => (false, "Price must be a valid number")
  | some price_float =>
      if pfLt price_float (.finite 0) then (false, "Price cannot be negative")
      else if pfLt (.finite 10000) price_float then
        (false, "Price seems unreasonably high")
      else (true, "Valid")

/-- Embedding of validate_stock_quantity (src/utils.py lines 70-80).  The
input is the outcome of int(quantity): none when the conversion raised
(int() never yields NaN, so plain integers suffice). -/
def validate_stock_quantity (quantity : Option Int) : Bool × String :=
  match quantity with
  | none => (false, "Stock quantity must be a valid whole number")
  | some qty_int =>
      if qty_int < 0 then (false, "Stock quantity cannot be negative")
      else if 1000000 < qty_int then
        (false, "Stock quantity seems unreasonably high")
      else (true, "Valid")

/-! ## Theorems settling the claims -/

/-- C1: get_stock_status is a total function on integer inputs returning
Critical when current_stock is nonpositive, Low when 0 < current_stock and
current_stock is at most reorder_point (so at the boundary
current_stock = reorder_point the result is Low, not Warning), Warning
when reorder_point < current_stock and current_stock is at most
1.5 times reorder_point, and Good otherwise.  The fractional threshold is
stated over the rationals, matching the wording of the specification. -/
theorem C1_stock_status (current_stock reorder_point : Int) :
    (current_stock ≤ 0 → get_stock_status current_stock reorder_point = .Critical) ∧
    (0 < current_stock → current_stock ≤ reorder_point →
      get_stock_status current_stock reorder_point = .Low) ∧
    (reorder_point < current_stock →
      (current_stock : ℚ) ≤ 1.5 * (reorder_point : ℚ) →
      get_stock_status current_stock reorder_point = .Warning) ∧
    (0 < current_stock → reorder_point < current_stock →
      1.5 * (reorder_point : ℚ) < (current_stock : ℚ) →
      get_stock_status current_stock reorder_point = .Good) := by
  have hratio : ((current_stock : ℚ) ≤ 1.5 * (reorder_point : ℚ)) ↔
      2 * current_stock ≤ 3 * reorder_point := by
    constructor
    · intro h
      have h2 : (2 * current_stock : ℚ) ≤ 3 * reorder_point := by linarith
      exact_mod_cast h2
    · intro h
      have h2 : ((2 * current_stock : Int) : ℚ) ≤ ((3 * reorder_point : Int) : ℚ) := by
        exact_mod_cast h
      push_cast at h2
      linarith
  refine ⟨?_, ?_, ?_, ?_⟩
  · intro h
    simp [get_stock_status, h]
  · intro h1 h2
    simp [get_stock_status, h2, not_le.mpr h1]
  · intro h1 h2
    have h2i : 2 * current_stock ≤ 3 * reorder_point := hratio.mp h2
    have h3 : ¬ current_stock ≤ 0 := by omega
    have h4 : ¬ current_stock ≤ reorder_point := by omega
    simp [get_stock_status, h3, h4, h2i]
  · intro h1 h2 h3
    have h4 : ¬ current_stock ≤ 0 := by omega
    have h5 : ¬ current_stock ≤ reorder_point := by omega
    have h6 : ¬ 2 * current_stock ≤ 3 * reorder_point := by
      intro hc
      exact absurd (hratio.mpr hc) (not_le.mpr h3)
    simp [get_stock_status, h4, h5, h6]

/-- Witness for C1 at concrete inputs: stock 0 is Critical, stock equal to
the reorder point is Low, stock just above it is Warning, and a large
stock is Good. -/
theorem C1_stock_status_witness :
    get_stock_status 0 10 = .Critical ∧
    get_stock_status 10 10 = .Low ∧
    get_stock_status 15 10 = .Warning ∧
    get_stock_status 16 10 = .Good := by
  refine ⟨(C1_stock_status 0 10).1 (by decide),
    (C1_stock_status 10 10).2.1 (by decide) (by decide),
    (C1_stock_status 15 10).2.2.1 (by decide) (by norm_num),
    (C1_stock_status 16 10).2.2.2 (by decide) (by decide) (by norm_num)⟩

/-- C4: get_alert_priority equals the additive score built from a stock
component (10 when stock is nonpositive, 8 when at most half the reorder
point, 5 when at most the reorder point, else 0) and an expiry component
(10 when expired, 8 when within 7 days, 5 when within 30 days, else 0),
capped at 20.  The fractional threshold is stated over the rationals,
matching the wording of the specification. -/
theorem C4_alert_priority_additive (current_stock reorder_point days_until_expiry : Int) :
    get_alert_priority current_stock reorder_point days_until_expiry =
      min
        ((if current_stock ≤ 0 then (10 : Int)
          else if (current_stock : ℚ) ≤ 0.5 * (reorder_point : ℚ) then 8
          else if current_stock ≤ reorder_point then 5
          else 0) +
         (if days_until_expiry < 0 then (10 : Int)
          else if days_until_expiry ≤ 7 then 8
          else if days_until_expiry ≤ 30 then 5
          else 0))
        20 := by
  have hhalf : ((current_stock : ℚ) ≤ 0.5 * (reorder_point : ℚ)) ↔
      2 * current_stock ≤ reorder_point := by
    constructor
    · intro h
      have h2 : ((2 * current_stock : Int) : ℚ) ≤ ((reorder_point : Int) : ℚ) := by
        push_cast
        linarith
      exact_mod_cast h2
    · intro h
      have h2 : ((2 * current_stock : Int) : ℚ) ≤ ((reorder_point : Int) : ℚ) := by
        exact_mod_cast h
      push_cast at h2
      linarith
  simp only [get_alert_priority, hhalf]

/-- C5: get_alert_priority is monotonically non-decreasing as
current_stock decreases with reorder_point fixed, monotonically
non-decreasing as days_until_expiry decreases, and always within the
interval from 0 to 20. -/
theorem C5_alert_priority_monotone_bounded
    (cs cs2 rp d d2 : Int) :
    (cs2 ≤ cs → get_alert_priority cs rp d ≤ get_alert_priority cs2 rp d) ∧
    (d2 ≤ d → get_alert_priority cs rp d ≤ get_alert_priority cs rp d2) ∧
    0 ≤ get_alert_priority cs rp d ∧
    get_alert_priority cs rp d ≤ 20 := by
  refine ⟨?_, ?_, ?_, ?_⟩
  · intro h
    simp only [get_alert_priority]
    split_ifs <;> omega
  · intro h
    simp only [get_alert_priority]
    split_ifs <;> omega
  · simp only [get_alert_priority]
    split_ifs <;> omega
  · simp only [get_alert_priority]
    split_ifs <;> omega

/-- Witness for C5 at concrete inputs: dropping stock from 11 to 3 with
the reorder point at 10 raises the priority, dropping days until expiry
from 40 to 5 raises it, and a sample value lies within the bounds. -/
theorem C5_alert_priority_monotone_bounded_witness :
    get_alert_priority 11 10 40 ≤ get_alert_priority 3 10 40 ∧
    get_alert_priority 11 10 40 ≤ get_alert_priority 11 10 5 ∧
    0 ≤ get_alert_priority 11 10 40 ∧
    get_alert_priority 11 10 40 ≤ 20 := by
  obtain ⟨h1, h2, h3, h4⟩ := C5_alert_priority_monotone_bounded 11 3 10 40 5
  exact ⟨h1 (by decide), h2 (by decide), h3, h4⟩

/-- Helper: pyInt agrees with the floor function on nonnegative rationals,
so the Python int() truncation is exactly rounding down there. -/
theorem pyInt_of_nonneg (q : ℚ) (h : 0 ≤ q) : pyInt q = ⌊q⌋ := by
  simp [pyInt, not_lt.mpr h]

/-- C3: with reorder_point nonnegative, generate_reorder_suggestion with
no usage data returns max(2 x reorder_point, 30) rounded down; with usage
data it returns avg_daily_usage x lead_time_days plus a three-day safety
stock minus current_stock, floored at reorder_point and rounded down; both
results are nonnegative; and the two concrete examples from the
specification hold. -/
theorem C3_reorder_suggestion (cs rp adu ltd : ℚ) (hrp : 0 ≤ rp) :
    generate_reorder_suggestion cs rp none ltd = ⌊max (rp * 2) 30⌋ ∧
    generate_reorder_suggestion cs rp (some adu) ltd =
      ⌊max (adu * ltd + adu * 3 - cs) rp⌋ ∧
    0 ≤ generate_reorder_suggestion cs rp none ltd ∧
    0 ≤ generate_reorder_suggestion cs rp (some adu) ltd ∧
    generate_reorder_suggestion 10 10 (some 5) 7 = 40 ∧
    generate_reorder_suggestion cs 10 none ltd = 30 := by
  have h30 : (0 : ℚ) ≤ max (rp * 2) 30 := le_trans (by norm_num) (le_max_right _ _)
  have hmax : (0 : ℚ) ≤ max (adu * ltd + adu * 3 - cs) rp :=
    le_trans hrp (le_max_right _ _)
  refine ⟨?_, ?_, ?_, ?_, ?_, ?_⟩
  · simp only [generate_reorder_suggestion]
    exact pyInt_of_nonneg _ h30
  · simp only [generate_reorder_suggestion]
    exact pyInt_of_nonneg _ hmax
  · simp only [generate_reorder_suggestion]
    rw [pyInt_of_nonneg _ h30]
    exact Int.floor_nonneg.mpr h30
  · simp only [generate_reorder_suggestion]
    rw [pyInt_of_nonneg _ hmax]
    exact Int.floor_nonneg.mpr hmax
  · norm_num [generate_reorder_suggestion, pyInt]
  · norm_num [generate_reorder_suggestion, pyInt]

/-- Witness for C3 at concrete inputs with reorder_point 10. -/
theorem C3_reorder_suggestion_witness :
    generate_reorder_suggestion 10 10 (some 5) 7 = 40 ∧
    generate_reorder_suggestion 0 10 none 7 = 30 := by
  obtain ⟨-, -, -, -, h5, h6⟩ := C3_reorder_suggestion 0 10 5 7 (by norm_num)
  exact ⟨(C3_reorder_suggestion 10 10 5 7 (by norm_num)).2.2.2.2.1, h6⟩

/-- C9: calculate_days_until_expiry accepts a structured date or a
fixed-format date string and returns the signed day difference from
today; an expiry equal to today yields 0 and an expiry one day in the
past yields -1; unparseable strings and non-date inputs return 0 rather
than failing. -/
theorem C9_days_until_expiry (y m d ty tm td : Nat) (s : String) :
    (calculate_days_until_expiry (.structured y m d) (ty, tm, td) =
      (toDayCount y m d : Int) - toDayCount ty tm td) ∧
    (parseDate s = some (y, m, d) →
      calculate_days_until_expiry (.dateStr s) (ty, tm, td) =
        (toDayCount y m d : Int) - toDayCount ty tm td) ∧
    (calculate_days_until_expiry (.structured ty tm td) (ty, tm, td) = 0) ∧
    (toDayCount ty tm td = toDayCount y m d + 1 →
      calculate_days_until_expiry (.structured y m d) (ty, tm, td) = -1) ∧
    (parseDate s = none →
      calculate_days_until_expiry (.dateStr s) (ty, tm, td) = 0) ∧
    (calculate_days_until_expiry .nonDate (ty, tm, td) = 0) := by
  refine ⟨rfl, ?_, by simp [calculate_days_until_expiry], ?_, ?_, rfl⟩
  · intro h
    simp [calculate_days_until_expiry, h]
  · intro h
    simp [calculate_days_until_expiry, h]
  · intro h
    simp [calculate_days_until_expiry, h]

/-- Witness for C9 at concrete dates: the string form of the first of
March 2024 read on that same day gives 0, the leap day just before it
gives -1, and an unparseable string gives 0. -/
theorem C9_days_until_expiry_witness :
    calculate_days_until_expiry (.dateStr "2024-03-01") (2024, 3, 1) = 0 ∧
    calculate_days_until_expiry (.structured 2024 2 29) (2024, 3, 1) = -1 ∧
    calculate_days_until_expiry (.dateStr "not-a-date") (2024, 3, 1) = 0 := by
  refine ⟨?_, ?_, ?_⟩
  · have h := (C9_days_until_expiry 2024 3 1 2024 3 1 "2024-03-01").2.1 (by decide)
    simpa using h
  · exact (C9_days_until_expiry 2024 2 29 2024 3 1 "x").2.2.2.1 (by decide)
  · exact (C9_days_until_expiry 1 1 1 2024 3 1 "not-a-date").2.2.2.2.1 (by decide)

/-- Helper: each bucket of the categorization is exactly the filter of
the input by its bucket index. -/
theorem categorize_eq_filters (today : Nat × Nat × Nat) (ms : List Medicine) :
    categorize_medicines_by_criticality today ms =
      ⟨ms.filter (fun m => bucketOf today m == 0),
       ms.filter (fun m => bucketOf today m == 1),
       ms.filter (fun m => bucketOf today m == 2),
       ms.filter (fun m => bucketOf today m == 3)⟩ := by
  induction ms with
  | nil => rfl
  | cons m rest ih =>
      simp only [categorize_medicines_by_criticality, ih, List.filter, bucketOf]
      split_ifs <;> simp_all [bucketOf]

/-- Helper: the multiplicity of any medicine across the four buckets adds
up to its multiplicity in the input list. -/
theorem categorize_count (today : Nat × Nat × Nat) (ms : List Medicine)
    (m : Medicine) :
    (categorize_medicines_by_criticality today ms).critical.count m +
    (categorize_medicines_by_criticality today ms).high.count m +
    (categorize_medicines_by_criticality today ms).medium.count m +
    (categorize_medicines_by_criticality today ms).low.count m = ms.count m := by
  induction ms with
  | nil => rfl
  | cons x rest ih =>
      simp only [categorize_medicines_by_criticality]
      split_ifs <;> by_cases hx : m = x <;>
        simp_all [List.count_cons] <;> omega

/-- Helper: the bucket sizes add up to the input size. -/
theorem categorize_length (today : Nat × Nat × Nat) (ms : List Medicine) :
    (categorize_medicines_by_criticality today ms).critical.length +
    (categorize_medicines_by_criticality today ms).high.length +
    (categorize_medicines_by_criticality today ms).medium.length +
    (categorize_medicines_by_criticality today ms).low.length = ms.length := by
  induction ms with
  | nil => rfl
  | cons x rest ih =>
      simp only [categorize_medicines_by_criticality]
      split_ifs <;> simp_all <;> try omega

/-- C6: categorize_medicines_by_criticality partitions its input by the
priority thresholds: each bucket is the order-preserving filter of the
input by the corresponding priority band, every medicine lands in exactly
one bucket (stated by multiplicity, so duplicates are also preserved),
and the bucket sizes sum to the input size. -/
theorem C6_categorize_partition (today : Nat × Nat × Nat) (ms : List Medicine) :
    (categorize_medicines_by_criticality today ms).critical =
      ms.filter (fun m => decide (15 ≤ medicinePriority today m)) ∧
    (categorize_medicines_by_criticality today ms).high =
      ms.filter (fun m =>
        decide (10 ≤ medicinePriority today m ∧ medicinePriority today m < 15)) ∧
    (categorize_medicines_by_criticality today ms).medium =
      ms.filter (fun m =>
        decide (5 ≤ medicinePriority today m ∧ medicinePriority today m < 10)) ∧
    (categorize_medicines_by_criticality today ms).low =
      ms.filter (fun m => decide (medicinePriority today m < 5)) ∧
    (∀ m : Medicine,
      (categorize_medicines_by_criticality today ms).critical.count m +
      (categorize_medicines_by_criticality today ms).high.count m +
      (categorize_medicines_by_criticality today ms).medium.count m +
      (categorize_medicines_by_criticality today ms).low.count m = ms.count m) ∧
    (categorize_medicines_by_criticality today ms).critical.length +
      (categorize_medicines_by_criticality today ms).high.length +
      (categorize_medicines_by_criticality today ms).medium.length +
      (categorize_medicines_by_criticality today ms).low.length = ms.length := by
  have hfc : ∀ m : Medicine, (bucketOf today m == 0) =
      decide (15 ≤ medicinePriority today m) := by
    intro m
    simp only [bucketOf]
    split_ifs <;> simp_all
  have hfh : ∀ m : Medicine, (bucketOf today m == 1) =
      decide (10 ≤ medicinePriority today m ∧ medicinePriority today m < 15) := by
    intro m
    simp only [bucketOf]
    split_ifs <;> simp_all
  have hfm : ∀ m : Medicine, (bucketOf today m == 2) =
      decide (5 ≤ medicinePriority today m ∧ medicinePriority today m < 10) := by
    intro m
    simp only [bucketOf]
    split_ifs <;> simp_all
    omega
  have hfl : ∀ m : Medicine, (bucketOf today m == 3) =
      decide (medicinePriority today m < 5) := by
    intro m
    simp only [bucketOf]
    split_ifs <;> simp_all <;> omega
  refine ⟨?_, ?_, ?_, ?_, categorize_count today ms, categorize_length today ms⟩ <;>
    rw [categorize_eq_filters]
  · simp [funext hfc]
  · simp [funext hfh]
  · simp [funext hfm]
  · simp [funext hfl]

/-- C2: when the medicine exists with stock old_stock, update_stock
succeeds, the new state reads back new_stock for that id and carries the
prior history plus exactly one new row recording old_stock and new_stock;
when the id is absent it fails with the not-found error and, the result
being an error rather than a state, nothing changes.  Success delivers
both the stock write and the history append in one state, so the two
cannot diverge (the transaction is atomic by construction). -/
theorem C2_update_stock (db : Database) (medicine_id : Nat)
    (new_stock old_stock : Int) (reason : String) :
    (selectStock db medicine_id = some old_stock →
      ∃ db2 : Database,
        update_stock db medicine_id new_stock reason = .ok db2 ∧
        selectStock db2 medicine_id = some new_stock ∧
        db2.stock_history = db.stock_history ++
          [⟨medicine_id, old_stock, new_stock, reason⟩] ∧
        db2.stock_history.length = db.stock_history.length + 1) ∧
    (selectStock db medicine_id = none →
      update_stock db medicine_id new_stock reason =
        .error ("Medicine with ID " ++ toString medicine_id ++ " not found")) := by
  constructor
  · intro h
    refine ⟨⟨db.medicines.map (fun r =>
        if r.id == medicine_id then { r with current_stock := new_stock } else r),
      db.stock_history ++ [⟨medicine_id, old_stock, new_stock, reason⟩]⟩,
      by simp [update_stock, h], ?_, rfl, by simp⟩
    simp only [selectStock] at h ⊢
    rw [List.find?_map]
    have hcomp : ((fun r : MedicineRow => r.id == medicine_id) ∘
        (fun r : MedicineRow =>
          if r.id == medicine_id then { r with current_stock := new_stock } else r)) =
        (fun r : MedicineRow => r.id == medicine_id) := by
      funext r
      by_cases hr : r.id = medicine_id <;> simp [hr]
    rw [hcomp]
    obtain ⟨r0, hr0, hstock⟩ : ∃ r0, db.medicines.find?
        (fun r => r.id == medicine_id) = some r0 ∧ r0.current_stock = old_stock := by
      rcases hfind : db.medicines.find? (fun r => r.id == medicine_id) with _ | r0
      · simp [hfind] at h
      · simp [hfind] at h
        exact ⟨r0, hfind, h⟩
    have hid := List.find?_some hr0
    simp only [beq_iff_eq] at hid
    simp [hr0, hid]
  · intro h
    simp [update_stock, h]

/-- Witness for C2 on a one-medicine store holding 80 units: updating to
50 appends the single history row from 80 to 50, and an absent id fails
with the not-found error. -/
theorem C2_update_stock_witness :
    (∃ db2 : Database,
      update_stock ⟨[⟨1, "Aspirin", 80, 10⟩], []⟩ 1 50 "Manual update" = .ok db2 ∧
      selectStock db2 1 = some 50 ∧
      db2.stock_history = ([] : List StockHistoryRow) ++ [⟨1, 80, 50, "Manual update"⟩] ∧
      db2.stock_history.length = ([] : List StockHistoryRow).length + 1) ∧
    update_stock (⟨[⟨1, "Aspirin", 80, 10⟩], []⟩ : Database) 2 50 "Manual update" =
      .error ("Medicine with ID " ++ toString 2 ++ " not found") := by
  constructor
  · exact (C2_update_stock ⟨[⟨1, "Aspirin", 80, 10⟩], []⟩ 1 50 80 "Manual update").1
      (by decide)
  · exact (C2_update_stock ⟨[⟨1, "Aspirin", 80, 10⟩], []⟩ 2 50 80 "Manual update").2
      (by decide)

/-- C7 counterexample: on the input of the specification scenario, with a
product name and a barcode but no suggested_reorder_point key,
suggest_medicine_data yields the name and the prefixed batch number but
omits reorder_point entirely instead of defaulting it to 10. -/
theorem C7_reorder_absent_counterexample :
    (suggest_medicine_data (some amoxResultInfo)).reorder_point ≠ some 10 ∧
    (suggest_medicine_data (some amoxResultInfo)).reorder_point = none ∧
    (suggest_medicine_data (some amoxResultInfo)).name = some "Amoxicillin 500mg" ∧
    (suggest_medicine_data (some amoxResultInfo)).batch_number =
      some "BC_0123456789" := by
  refine ⟨by decide, by decide, by decide, by decide⟩

/-- C7 amended: suggest_medicine_data takes the name from the AI name
when truthy, else the basic product name; synthesizes batch_number as the
fixed prefix plus the raw barcode whenever a barcode is known; omits
reorder_point when the suggested reorder point is absent or falsy; and
when it is present and truthy, parses it as an integer with 10 as the
explicit fallback on conversion failure. -/
theorem C7_suggest_medicine_data (info : BDict) :
    ((sTruthy info.name || sTruthy info.product_name) = true →
      (suggest_medicine_data (some info)).name = pyOrStr info.name info.product_name) ∧
    (sTruthy info.barcode = true →
      (suggest_medicine_data (some info)).batch_number =
        some ("BC_" ++ info.barcode.getD "")) ∧
    (jTruthy info.suggested_reorder_point = false →
      (suggest_medicine_data (some info)).reorder_point = none) ∧
    (∀ v : JVal, info.suggested_reorder_point = some v →
      jTruthy (some v) = true →
      (suggest_medicine_data (some info)).reorder_point =
        some ((pyIntOfJVal v).getD 10)) := by
  refine ⟨?_, ?_, ?_, ?_⟩
  · intro h
    simp [suggest_medicine_data, h]
  · intro h
    simp [suggest_medicine_data, h]
  · intro h
    simp [suggest_medicine_data, h]
  · intro v hv h
    simp [suggest_medicine_data, hv, h]

/-- Witness for C7 amended at concrete inputs: the scenario record gives
the name and batch number and no reorder point; a present but
unconvertible reorder point falls back to 10. -/
theorem C7_suggest_medicine_data_witness :
    (suggest_medicine_data (some badReorderInfo)).name =
      pyOrStr badReorderInfo.name badReorderInfo.product_name ∧
    (suggest_medicine_data (some badReorderInfo)).batch_number =
      some ("BC_" ++ badReorderInfo.barcode.getD "") ∧
    (suggest_medicine_data (some amoxResultInfo)).reorder_point = none ∧
    (suggest_medicine_data (some badReorderInfo)).reorder_point =
      some ((pyIntOfJVal (.jstr "around twenty")).getD 10) := by
  obtain ⟨h1, h2, -, h4⟩ := C7_suggest_medicine_data badReorderInfo
  exact ⟨h1 (by decide), h2 (by decide),
    (C7_suggest_medicine_data amoxResultInfo).2.2.1 (by decide),
    h4 (.jstr "around twenty") rfl (by decide)⟩

/-- C8: evaluation of the barcode resolution at the failing input.  The
basic lookup found nothing and the AI-only call answered with prose
containing no brace; the source then reads the never assigned json_str,
the NameError is swallowed by the outer handler, and the chain returns
None instead of the minimal Unknown Product record its own comment
promises for parse failures. -/
theorem C8_ai_lookup_no_brace (parseJson : String → Option BDict)
    (enhanceCall : Option (Option String)) :
    get_medicine_info_from_barcode parseJson "012345678905" none enhanceCall
      (some (some "I cannot identify this product from the code alone.")) = none ∧
    ai_barcode_lookup parseJson "012345678905"
      (some (some "I cannot identify this product from the code alone.")) = none := by
  constructor <;> rfl

/-- C10 counterexample: NaN converts from the string nan, is accepted by
validate_price, yet satisfies neither bound of the claimed range, so
"valid exactly when 0 <= p <= 10000" fails. -/
theorem C10_nan_counterexample :
    validate_price (some .nan) = (true, "Valid") ∧
    pfLe (.finite 0) .nan = false ∧
    pfLe .nan (.finite 10000) = false := by
  refine ⟨by decide, by decide, by decide⟩

/-- C10 amended: validate_price accepts a converted float exactly when
neither comparison p < 0 nor p > 10000 fires, which on finite values is
exactly the claimed range 0 <= p <= 10000 but also accepts the
incomparable NaN; validate_stock_quantity accepts exactly the integers
from 0 to 1000000; failed conversions are rejected with a message rather
than an exception. -/
theorem C10_validators (x : PFloat) (p : ℚ) (q : Int) :
    ((validate_price (some x)).1 = true ↔
      (pfLt x (.finite 0) = false ∧ pfLt (.finite 10000) x = false)) ∧
    ((validate_price (some (.finite p))).1 = true ↔ 0 ≤ p ∧ p ≤ 10000) ∧
    validate_price none = (false, "Price must be a valid number") ∧
    ((validate_stock_quantity (some q)).1 = true ↔ 0 ≤ q ∧ q ≤ 1000000) ∧
    validate_stock_quantity none =
      (false, "Stock quantity must be a valid whole number") := by
  refine ⟨?_, ?_, rfl, ?_, rfl⟩
  · cases x with
    | finite p0 =>
        by_cases h1 : p0 < 0 <;> by_cases h2 : (10000 : ℚ) < p0 <;>
          simp [validate_price, pfLt, h1, h2]
    | nan => simp [validate_price, pfLt]
    | inf => simp [validate_price, pfLt]
    | ninf => simp [validate_price, pfLt]
  · constructor
    · intro h
      by_cases h1 : p < 0
      · simp [validate_price, pfLt, h1] at h
      · by_cases h2 : (10000 : ℚ) < p
        · simp [validate_price, pfLt, h1, h2] at h
        · exact ⟨le_of_not_lt h1, le_of_not_lt h2⟩
    · rintro ⟨ha, hb⟩
      simp [validate_price, pfLt, not_lt.mpr ha, not_lt.mpr hb]
  · simp only [validate_stock_quantity]
    split_ifs <;> simp <;> omega

end Medistock
